import Mathlib

/-!
# Saknli backend — shallow embedding and verification

A shallow embedding of the Saknli housing-rental backend (`main.py`,
`schemas.py`): the password-hashing scheme, the bearer-token session gate,
and the signup / login / property / booking / admin route handlers, each
translated as a pure Lean function over an explicit database state.
Machine words are `Nat` with explicit `% 2 ^ 32`; nondeterministic inputs
(current time, the random session token, database-assigned identifiers)
are passed as explicit parameters; `os.getenv` is a `String → Option String`
parameter.
-/

namespace Saknli

/-! ## 32-bit word arithmetic and SHA-256 (`hashlib.sha256`) -/

/-- `2 ^ 32`, the modulus of 32-bit words. -/
def M32 : Nat := 4294967296

/-- Right-rotation of a 32-bit word. -/
def rotr (n x : Nat) : Nat := ((x >>> n) ||| (x <<< (32 - n))) % M32

/-- Bitwise choice: `(x AND y) XOR ((NOT x) AND z)` on 32-bit words. -/
def ch32 (x y z : Nat) : Nat := (x &&& y) ^^^ ((x ^^^ 4294967295) &&& z)

/-- Bitwise majority of three 32-bit words. -/
def maj32 (x y z : Nat) : Nat := (x &&& y) ^^^ (x &&& z) ^^^ (y &&& z)

/-- SHA-256 Σ₀. -/
def bsig0 (x : Nat) : Nat := rotr 2 x ^^^ rotr 13 x ^^^ rotr 22 x

/-- SHA-256 Σ₁. -/
def bsig1 (x : Nat) : Nat := rotr 6 x ^^^ rotr 11 x ^^^ rotr 25 x

/-- SHA-256 σ₀. -/
def ssig0 (x : Nat) : Nat := rotr 7 x ^^^ rotr 18 x ^^^ (x >>> 3)

/-- SHA-256 σ₁. -/
def ssig1 (x : Nat) : Nat := rotr 17 x ^^^ rotr 19 x ^^^ (x >>> 10)

/-- The 64 SHA-256 round constants (FIPS 180-2 §4.2.2, here in decimal). -/
def shaK : List Nat :=
  [1116352408, 1899447441, 3049323471, 3921009573, 961987163,
   1508970993, 2453635748, 2870763221, 3624381080, 310598401,
   607225278, 1426881987, 1925078388, 2162078206, 2614888103,
   3248222580, 3835390401, 4022224774, 264347078, 604807628,
   770255983, 1249150122, 1555081692, 1996064986, 2554220882,
   2821834349, 2952996808, 3210313671, 3336571891, 3584528711,
   113926993, 338241895, 666307205, 773529912, 1294757372,
   1396182291, 1695183700, 1986661051, 2177026350, 2456956037,
   2730485921, 2820302411, 3259730800, 3345764771, 3516065817,
   3600352804, 4094571909, 275423344, 430227734, 506948616,
   659060556, 883997877, 958139571, 1322822218, 1537002063,
   1747873779, 1955562222, 2024104815, 2227730452, 2361852424,
   2428436474, 2756734187, 3204031479, 3329325298]

/-- The SHA-256 initial hash state (FIPS 180-2 §5.3.2, here in decimal). -/
def shaH0 : List Nat :=
  [1779033703, 3144134277, 1013904242, 2773480762, 1359893119,
   2600822924, 528734635, 1541459225]

/-- The eight working registers of the SHA-256 compression loop. -/
structure Regs where
  a : Nat
  b : Nat
  c : Nat
  d : Nat
  e : Nat
  f : Nat
  g : Nat
  h : Nat
deriving Repr, DecidableEq

/-- One SHA-256 round on the working registers. -/
def shaRound (ki wi : Nat) (r : Regs) : Regs :=
  let t1 := (r.h + bsig1 r.e + ch32 r.e r.f r.g + ki + wi) % M32
  let t2 := (bsig0 r.a + maj32 r.a r.b r.c) % M32
  ⟨(t1 + t2) % M32, r.a, r.b, r.c, (r.d + t1) % M32, r.e, r.f, r.g⟩

/-- Extend 16 message-schedule words to 64. -/
def shaSchedule (ws : Array Nat) : Array Nat :=
  (List.range 48).foldl
    (fun w i =>
      let t := (ssig1 (w.getD (i + 14) 0) + w.getD (i + 9) 0 +
                ssig0 (w.getD (i + 1) 0) + w.getD i 0) % M32
      w.push t)
    ws

/-- Big-endian bytes of a `Nat` in `n` bytes. -/
def beBytes (n x : Nat) : List Nat :=
  (List.range n).map (fun i => (x >>> (8 * (n - 1 - i))) % 256)

/-- Group a byte list into big-endian 32-bit words (fuel-driven). -/
def bytesToWordsAux : Nat → List Nat → List Nat
  | 0, _ => []
  | _, [] => []
  | fuel + 1, b0 :: rest =>
    match rest with
    | b1 :: b2 :: b3 :: rest' =>
      (b0 * 16777216 + b1 * 65536 + b2 * 256 + b3) :: bytesToWordsAux fuel rest'
    | _ => []

/-- Group a byte list into big-endian 32-bit words. -/
def bytesToWords (bs : List Nat) : List Nat := bytesToWordsAux bs.length bs

/-- SHA-256 padding: append `0x80`, zeros to 56 mod 64, and the 64-bit
big-endian bit length. -/
def shaPad (msg : List Nat) : List Nat :=
  let zeros := (119 - msg.length % 64) % 64
  msg ++ [0x80] ++ List.replicate zeros 0 ++ beBytes 8 (8 * msg.length)

/-- Split a byte list into 64-byte chunks (fuel-driven). -/
def chunks64Aux : Nat → List Nat → List (List Nat)
  | 0, _ => []
  | _, [] => []
  | fuel + 1, l => l.take 64 :: chunks64Aux fuel (l.drop 64)

/-- Split a byte list into 64-byte chunks. -/
def chunks64 (bs : List Nat) : List (List Nat) := chunks64Aux bs.length bs

/-- Compress one 64-byte block into the running hash state. -/
def shaCompress (h : List Nat) (block : List Nat) : List Nat :=
  let w := shaSchedule (bytesToWords block).toArray
  let r0 : Regs := ⟨h.getD 0 0, h.getD 1 0, h.getD 2 0, h.getD 3 0,
                    h.getD 4 0, h.getD 5 0, h.getD 6 0, h.getD 7 0⟩
  let r := (List.range 64).foldl (fun r i => shaRound (shaK.getD i 0) (w.getD i 0) r) r0
  [(h.getD 0 0 + r.a) % M32, (h.getD 1 0 + r.b) % M32, (h.getD 2 0 + r.c) % M32,
   (h.getD 3 0 + r.d) % M32, (h.getD 4 0 + r.e) % M32, (h.getD 5 0 + r.f) % M32,
   (h.getD 6 0 + r.g) % M32, (h.getD 7 0 + r.h) % M32]

/-- SHA-256 of a byte sequence, as the 32 digest bytes. -/
def sha256 (msg : List Nat) : List Nat :=
  let hFinal := (chunks64 (shaPad msg)).foldl shaCompress shaH0
  hFinal.foldr (fun w acc => beBytes 4 w ++ acc) []

/-- The lowercase hexadecimal digit for a value below 16. -/
def hexDigitChar (n : Nat) : Char :=
  if n < 10 then Char.ofNat (48 + n) else Char.ofNat (87 + n)

/-- Lowercase hexadecimal rendering of a byte list (`hexdigest`). -/
def bytesToHex (bs : List Nat) : String :=
  ⟨bs.foldr (fun b acc => hexDigitChar (b / 16) :: hexDigitChar (b % 16) :: acc) []⟩

/-- UTF-8 encoding of one Unicode scalar value, as bytes. -/
def utf8EncodeCharNat (c : Char) : List Nat :=
  let n := c.toNat
  if n < 128 then [n]
  else if n < 2048 then [192 ||| (n >>> 6), 128 ||| (n &&& 63)]
  else if n < 65536 then
    [224 ||| (n >>> 12), 128 ||| ((n >>> 6) &&& 63), 128 ||| (n &&& 63)]
  else
    [240 ||| (n >>> 18), 128 ||| ((n >>> 12) &&& 63),
     128 ||| ((n >>> 6) &&& 63), 128 ||| (n &&& 63)]

/-- UTF-8 encoding of a string (`str.encode()`), as bytes. -/
def utf8Encode (s : String) : List Nat := (s.data.map utf8EncodeCharNat).flatten

/-! ## Python string primitives used by the handlers -/

/-- Python `str.lower()` restricted to the ASCII range (the only characters
the bearer-scheme comparison can be sensitive to). -/
def pyLower (s : String) : String := ⟨s.data.map Char.toLower⟩

/-- `charsStartWith pre l` is Python `l.startswith(pre)` on character lists. -/
def charsStartWith : List Char → List Char → Bool
  | [], _ => true
  | _ :: _, [] => false
  | a :: as, b :: bs => a == b && charsStartWith as bs

/-- Python `str.startswith`. -/
def pyStartsWith (s pre : String) : Bool := charsStartWith pre.data s.data

/-- The whitespace characters Python `str.split()` splits on. -/
def isPyWs (c : Char) : Bool :=
  c == ' ' || c == '\t' || c == '\n' || c == '\x0d' || c == '\x0b' || c == '\x0c'

/-- Worker for `pySplit`: accumulates the current word (reversed). -/
def pySplitAux : List Char → List Char → List String
  | [], acc => if acc.isEmpty then [] else [⟨acc.reverse⟩]
  | c :: cs, acc =>
    if isPyWs c then
      if acc.isEmpty then pySplitAux cs [] else (⟨acc.reverse⟩ : String) :: pySplitAux cs []
    else pySplitAux cs (c :: acc)

/-- Python `str.split()` with no argument: split on whitespace runs,
discarding empty pieces. -/
def pySplit (s : String) : List String := pySplitAux s.data []

/-! ## Identifiers

BSON `ObjectId` values are modelled as `Nat`; the wire form is the 24-digit
hexadecimal string. `ObjectId(s)` accepts exactly the 24-character hexadecimal
strings (either case) and raises otherwise. -/

/-- Hexadecimal digit test, both cases (as accepted by `ObjectId`). -/
def isHexChar (c : Char) : Bool :=
  c.isDigit || ('a' ≤ c && c ≤ 'f') || ('A' ≤ c && c ≤ 'F')

/-- Value of a hexadecimal digit character. -/
def hexCharVal (c : Char) : Nat :=
  if c.isDigit then c.toNat - 48
  else if 'a' ≤ c && c ≤ 'f' then c.toNat - 87
  else c.toNat - 55

/-- `ObjectId(s)` as a parser: `some` exactly on 24-character hex strings. -/
def parseOid (s : String) : Option Nat :=
  if s.length = 24 && s.data.all isHexChar then
    some (s.data.foldl (fun acc c => 16 * acc + hexCharVal c) 0)
  else none

/-- `str(oid)`: the 24-digit lowercase hexadecimal rendering. -/
def oidStr (n : Nat) : String :=
  ⟨(List.range 24).map (fun i => hexDigitChar ((n >>> (4 * (23 - i))) % 16))⟩

/-! ## Data model (`schemas.py` plus the database-assigned `_id`)

Documents are the stored MongoDB documents: the schema fields plus the
database-assigned `_id`. `Property` documents additionally carry the
`updated_at` field that `update_property` stamps (absent on creation).
Calendar dates and timestamps are `Nat` (days / seconds are irrelevant to the
claims; only ordering and the 7-day offset matter, with one day = 86400). -/

/-- A stored `user` document. -/
structure UserDoc where
  _id : Nat
  full_name : String
  email : String
  password_hash : String
  role : String
  phone : Option String
  city : Option String
deriving Repr, DecidableEq

/-- A stored `session` document (`user_id` is kept as a native `ObjectId`,
as `signup`/`login` overwrite the schema's string with the raw id). -/
structure SessionDoc where
  _id : Nat
  user_id : Nat
  token : String
  expires_at : Nat
deriving Repr, DecidableEq

/-- A stored `property` document. -/
structure PropDoc where
  _id : Nat
  title : String
  description : String
  city : String
  address : String
  type : String
  price_per_month : Rat
  images : List String
  lat : Option Rat
  lng : Option Rat
  distance_to_university : Option String
  available_from : Option Nat
  available_to : Option Nat
  host_id : String
  is_active : Bool
  updated_at : Option Nat
deriving Repr, DecidableEq

/-- A stored `booking` document (both references are native `ObjectId`s). -/
structure BookingDoc where
  _id : Nat
  property_id : Nat
  user_id : Nat
  start_date : Nat
  end_date : Nat
  guests : Int
  status : String
deriving Repr, DecidableEq

/-- The four collections plus the database's id-assignment counter
(MongoDB assigns each inserted document a fresh `_id`; the counter makes
that explicit). -/
structure DB where
  users : List UserDoc
  sessions : List SessionDoc
  properties : List PropDoc
  bookings : List BookingDoc
  nextId : Nat
deriving Repr, DecidableEq

/-- An empty database. -/
def emptyDB : DB := ⟨[], [], [], [], 0⟩

/-- Ids already stored are older than the counter — maintained by every
insert, assumed of input states. -/
def DB.wf (db : DB) : Prop :=
  (∀ u ∈ db.users, u._id < db.nextId) ∧
  (∀ s ∈ db.sessions, s._id < db.nextId) ∧
  (∀ p ∈ db.properties, p._id < db.nextId) ∧
  (∀ b ∈ db.bookings, b._id < db.nextId)

instance (db : DB) : Decidable db.wf := by
  unfold DB.wf; infer_instance

/-- How a request ends when it does not succeed: an `HTTPException`
(status + Arabic detail), or an uncaught Python exception, which FastAPI
turns into a generic 500 response. -/
inductive Failure where
  | http (status : Nat) (detail : String)
  | exn (name : String)
deriving Repr, DecidableEq

/-! ## Authentication & session module (`main.py` helpers) -/

/-- `hash_password`: SHA-256 hex digest of the UTF-8 encoded
password‖salt, the salt read from `PW_SALT` with the literal fallback.
`env` models `os.getenv`. -/
def hash_password (env : String → Option String) (password : String) : String :=
  let salt := (env "PW_SALT").getD "saknli_salt"
  bytesToHex (sha256 (utf8Encode (password ++ salt)))

/-- The public user view built by `user_safe`: every stored field except
`password_hash`, with the identifier exposed as the string field `id`. -/
structure SafeUser where
  id : String
  full_name : String
  email : String
  role : String
  phone : Option String
  city : Option String
deriving Repr, DecidableEq

/-- `user_safe` on a (present) user document. -/
def user_safe (u : UserDoc) : SafeUser :=
  { id := oidStr u._id, full_name := u.full_name, email := u.email,
    role := u.role, phone := u.phone, city := u.city }

/-- `get_current_user`: the bearer-token gate. Reads the `Authorization`
header, requires the case-insensitive `bearer ` prefix, takes the second
whitespace-separated word as the token (an out-of-range index is the
uncaught `IndexError` of `authorization.split()[1]`), resolves an
unexpired session and then its user. Performs no write. -/
def get_current_user (authorization : Option String) (now : Nat) (db : DB) :
    Except Failure SafeUser :=
  match authorization with
  | none => .error (.http 401 "يرجى تسجيل الدخول")
  | some a =>
    if a = "" then .error (.http 401 "يرجى تسجيل الدخول")
    else if ¬ pyStartsWith (pyLower a) "bearer " then .error (.http 401 "يرجى تسجيل الدخول")
    else
      match pySplit a with
      | _ :: token :: _ =>
        match db.sessions.find? (fun s => s.token == token && decide (now < s.expires_at)) with
        | none => .error (.http 401 "انتهت الجلسة أو غير صالحة")
        | some s =>
          match db.users.find? (fun u => u._id == s.user_id) with
          | none => .error (.http 401 "المستخدم غير موجود")
          | some u => .ok (user_safe u)
      | _ => .error (.exn "IndexError")

/-! ## Auth routes -/

/-- The parsed `SignupBody` (after pydantic fills the `role` default). -/
structure SignupBody where
  full_name : String
  email : String
  password : String
  role : String
  phone : Option String
  city : Option String
deriving Repr, DecidableEq

/-- The wire-level signup body: `role` may be absent. -/
structure RawSignupBody where
  full_name : String
  email : String
  password : String
  role : Option String
  phone : Option String
  city : Option String
deriving Repr, DecidableEq

/-- Pydantic parse of `SignupBody`: absent `role` becomes `"user"`. -/
def parseSignupBody (r : RawSignupBody) : SignupBody :=
  { full_name := r.full_name, email := r.email, password := r.password,
    role := r.role.getD "user", phone := r.phone, city := r.city }

/-- The `TokenResponse` wire shape. -/
structure TokenResponse where
  token : String
  user : SafeUser
deriving Repr, DecidableEq

/-- Seven days, the session lifetime (`timedelta(days=7)`), in seconds. -/
def sevenDays : Nat := 7 * 86400

/-- `POST /auth/signup`. `now` is `datetime.utcnow()`, `tok` the value of
`secrets.token_urlsafe(32)`. Returns the response (or failure) and the
resulting database state. -/
def signup (env : String → Option String) (now : Nat) (tok : String)
    (body : SignupBody) (db : DB) : Except Failure TokenResponse × DB :=
  match db.users.find? (fun u => u.email == body.email) with
  | some _ => (.error (.http 400 "البريد الإلكتروني مستخدم مسبقاً"), db)
  | none =>
    let uid := db.nextId
    let udoc : UserDoc :=
      ⟨uid, body.full_name, body.email, hash_password env body.password,
       body.role, body.phone, body.city⟩
    let db1 : DB := { db with users := db.users ++ [udoc], nextId := db.nextId + 1 }
    let sdoc : SessionDoc := ⟨db1.nextId, uid, tok, now + sevenDays⟩
    let db2 : DB := { db1 with sessions := db1.sessions ++ [sdoc], nextId := db1.nextId + 1 }
    match db2.users.find? (fun u => u._id == uid) with
    | some u => (.ok ⟨tok, user_safe u⟩, db2)
    | none => (.error (.exn "TypeError"), db2)

/-- The parsed `LoginBody`. -/
structure LoginBody where
  email : String
  password : String
deriving Repr, DecidableEq

/-- `POST /auth/login`. -/
def login (env : String → Option String) (now : Nat) (tok : String)
    (body : LoginBody) (db : DB) : Except Failure TokenResponse × DB :=
  match db.users.find? (fun u => u.email == body.email) with
  | none => (.error (.http 401 "بيانات الدخول غير صحيحة"), db)
  | some u =>
    if u.password_hash ≠ hash_password env body.password then
      (.error (.http 401 "بيانات الدخول غير صحيحة"), db)
    else
      let sdoc : SessionDoc := ⟨db.nextId, u._id, tok, now + sevenDays⟩
      (.ok ⟨tok, user_safe u⟩,
       { db with sessions := db.sessions ++ [sdoc], nextId := db.nextId + 1 })

/-! ## Property routes -/

/-- The property wire view: the stored fields with `id` substituted for
`_id` (`d["id"] = str(d.pop("_id"))`). -/
structure PropView where
  id : String
  title : String
  description : String
  city : String
  address : String
  type : String
  price_per_month : Rat
  images : List String
  lat : Option Rat
  lng : Option Rat
  distance_to_university : Option String
  available_from : Option Nat
  available_to : Option Nat
  host_id : String
  is_active : Bool
  updated_at : Option Nat
deriving Repr, DecidableEq

/-- Render a stored property document for the wire. -/
def propOut (p : PropDoc) : PropView :=
  { id := oidStr p._id, title := p.title, description := p.description,
    city := p.city, address := p.address, type := p.type,
    price_per_month := p.price_per_month, images := p.images,
    lat := p.lat, lng := p.lng,
    distance_to_university := p.distance_to_university,
    available_from := p.available_from, available_to := p.available_to,
    host_id := p.host_id, is_active := p.is_active, updated_at := p.updated_at }

/-- The query parameters of `GET /properties` (`limit` defaults to 50). -/
structure ListParams where
  city : Option String := none
  type : Option String := none
  min_price : Option Rat := none
  max_price : Option Rat := none
  start_date : Option Nat := none
  end_date : Option Nat := none
  limit : Int := 50
deriving Repr, DecidableEq

/-- The filter document built by `list_properties`, as a predicate on a
stored property. Mirrors the handler's construction: `is_active: True`
always; city/type exact matches added only when the parameter is truthy
(so an empty string adds no clause); `$gte`/`$lte` price bounds added per
given bound; the `$and` of two `$or` availability clauses added exactly
when both dates are given, a `None` field matching the first disjunct. -/
def matchesQuery (ps : ListParams) (p : PropDoc) : Bool :=
  p.is_active
  && (match ps.city with
      | none => true
      | some c => if c = "" then true else p.city == c)
  && (match ps.type with
      | none => true
      | some t => if t = "" then true else p.type == t)
  && (match ps.min_price with
      | none => true
      | some m => decide (m ≤ p.price_per_month))
  && (match ps.max_price with
      | none => true
      | some m => decide (p.price_per_month ≤ m))
  && (match ps.start_date, ps.end_date with
      | some s, some e =>
        (match p.available_from with
         | none => true
         | some af => decide (af ≤ e))
        && (match p.available_to with
            | none => true
            | some at_ => decide (s ≤ at_))
      | _, _ => true)

/-- MongoDB cursor `limit`: `0` means no limit, otherwise at most `|n|`. -/
def mongoLimit (n : Int) (l : List α) : List α :=
  if n = 0 then l else l.take n.natAbs

/-- `GET /properties`: filter, limit, render. -/
def list_properties (ps : ListParams) (db : DB) : List PropView :=
  (mongoLimit ps.limit (db.properties.filter (matchesQuery ps))).map propOut

/-- `GET /properties/{prop_id}`: `to_object_id` (400 on a malformed id),
then find-by-id (404 when absent), returned regardless of `is_active`. -/
def get_property (prop_id : String) (db : DB) : Except Failure PropView :=
  match parseOid prop_id with
  | none => .error (.http 400 "معرف غير صالح")
  | some oid =>
    match db.properties.find? (fun p => p._id == oid) with
    | none => .error (.http 404 "السكن غير موجود")
    | some p => .ok (propOut p)

/-- The parsed `PropertyUpdate` body: every field optional, `None` for
an absent one (pydantic gives an explicit JSON `null` the same `None`). -/
structure PropertyUpdate where
  title : Option String := none
  description : Option String := none
  city : Option String := none
  address : Option String := none
  type : Option String := none
  price_per_month : Option Rat := none
  images : Option (List String) := none
  lat : Option Rat := none
  lng : Option Rat := none
  distance_to_university : Option String := none
  available_from : Option Nat := none
  available_to : Option Nat := none
  is_active : Option Bool := none
deriving Repr, DecidableEq

/-- The wire-level update body, keeping absent (`none`) apart from an
explicit JSON `null` (`some none`). -/
structure RawPropertyUpdate where
  title : Option (Option String) := none
  description : Option (Option String) := none
  city : Option (Option String) := none
  address : Option (Option String) := none
  type : Option (Option String) := none
  price_per_month : Option (Option Rat) := none
  images : Option (Option (List String)) := none
  lat : Option (Option Rat) := none
  lng : Option (Option Rat) := none
  distance_to_university : Option (Option String) := none
  available_from : Option (Option Nat) := none
  available_to : Option (Option Nat) := none
  is_active : Option (Option Bool) := none
deriving Repr, DecidableEq

/-- Pydantic parse of `PropertyUpdate`: each `Optional[...] = None` field
reads an absent key and an explicit `null` both as `None`. -/
def parsePropertyUpdate (r : RawPropertyUpdate) : PropertyUpdate :=
  { title := r.title.join, description := r.description.join,
    city := r.city.join, address := r.address.join, type := r.type.join,
    price_per_month := r.price_per_month.join, images := r.images.join,
    lat := r.lat.join, lng := r.lng.join,
    distance_to_university := r.distance_to_university.join,
    available_from := r.available_from.join, available_to := r.available_to.join,
    is_active := r.is_active.join }

/-- Whether `body.model_dump(exclude_none=True)` is the empty dict. -/
def noFields (b : PropertyUpdate) : Bool :=
  b.title.isNone && b.description.isNone && b.city.isNone && b.address.isNone
  && b.type.isNone && b.price_per_month.isNone && b.images.isNone
  && b.lat.isNone && b.lng.isNone && b.distance_to_university.isNone
  && b.available_from.isNone && b.available_to.isNone && b.is_active.isNone

/-- The `$set` of the `exclude_none` dump plus `$currentDate: updated_at`:
each present field overwrites, every other stored field is kept. -/
def applyUpdate (b : PropertyUpdate) (now : Nat) (p : PropDoc) : PropDoc :=
  { p with
    title := b.title.getD p.title,
    description := b.description.getD p.description,
    city := b.city.getD p.city,
    address := b.address.getD p.address,
    type := b.type.getD p.type,
    price_per_month := b.price_per_month.getD p.price_per_month,
    images := b.images.getD p.images,
    lat := match b.lat with | some v => some v | none => p.lat,
    lng := match b.lng with | some v => some v | none => p.lng,
    distance_to_university :=
      match b.distance_to_university with
      | some v => some v
      | none => p.distance_to_university,
    available_from := match b.available_from with | some v => some v | none => p.available_from,
    available_to := match b.available_to with | some v => some v | none => p.available_to,
    is_active := b.is_active.getD p.is_active,
    updated_at := some now }

/-- `update_one` on the first document matching `pred`. -/
def updateFirst (pred : α → Bool) (f : α → α) : List α → List α
  | [] => []
  | x :: xs => if pred x then f x :: xs else x :: updateFirst pred f xs

/-- The two shapes `PUT /properties/{id}` can answer with. -/
inductive UpdateResult where
  | notUpdated
  | updated (p : PropView)
deriving Repr, DecidableEq

/-- `PUT /properties/{prop_id}`: id parse (400), find (404), the
admin-or-owner check (403), the `{updated: False}` shortcut when the
`exclude_none` dump is empty, else the `$set`/`$currentDate` write and a
refetch of the written document. -/
def update_property (now : Nat) (prop_id : String) (body : PropertyUpdate)
    (user : SafeUser) (db : DB) : Except Failure UpdateResult × DB :=
  match parseOid prop_id with
  | none => (.error (.http 400 "معرف غير صالح"), db)
  | some oid =>
    match db.properties.find? (fun p => p._id == oid) with
    | none => (.error (.http 404 "السكن غير موجود"), db)
    | some p =>
      if user.role ≠ "admin" ∧ p.host_id ≠ user.id then
        (.error (.http 403 "ليس لديك إذن للتعديل"), db)
      else if noFields body then (.ok .notUpdated, db)
      else
        let db' : DB :=
          { db with properties := updateFirst (fun q => q._id == p._id) (applyUpdate body now) db.properties }
        match db'.properties.find? (fun q => q._id == p._id) with
        | some q => (.ok (.updated (propOut q)), db')
        | none => (.error (.exn "AttributeError"), db')

/-! ## Booking route -/

/-- The parsed `BookingCreate` body (`guests` defaults to 1, with no bound
at this layer). -/
structure BookingCreate where
  property_id : String
  start_date : Nat
  end_date : Nat
  guests : Int := 1
deriving Repr, DecidableEq

/-- The booking wire view: `id` plus the two references as plain strings. -/
structure BookingView where
  id : String
  property_id : String
  user_id : String
  start_date : Nat
  end_date : Nat
  guests : Int
  status : String
deriving Repr, DecidableEq

/-- `POST /bookings`: date-order check (400), `to_object_id` on the
property id (400), property lookup (404), then the `BookingSchema`
construction — whose `guests` bound `ge=1, le=10` raises an uncaught
`ValidationError` when violated — the `ObjectId` conversion of the
caller's id, the insert, and the stringified refetch. -/
def create_booking (body : BookingCreate) (user : SafeUser) (db : DB) :
    Except Failure BookingView × DB :=
  if body.end_date < body.start_date then
    (.error (.http 400 "نطاق التواريخ غير صالح"), db)
  else
    match parseOid body.property_id with
    | none => (.error (.http 400 "معرف غير صالح"), db)
    | some poid =>
      match db.properties.find? (fun p => p._id == poid) with
      | none => (.error (.http 404 "السكن غير موجود"), db)
      | some _ =>
        if ¬ (1 ≤ body.guests ∧ body.guests ≤ 10) then
          (.error (.exn "ValidationError"), db)
        else
          match parseOid user.id with
          | none => (.error (.exn "InvalidId"), db)
          | some uoid =>
            let bid := db.nextId
            let bdoc : BookingDoc :=
              ⟨bid, poid, uoid, body.start_date, body.end_date, body.guests, "pending"⟩
            let db' : DB := { db with bookings := db.bookings ++ [bdoc], nextId := db.nextId + 1 }
            match db'.bookings.find? (fun b => b._id == bid) with
            | some b =>
              (.ok ⟨oidStr b._id, oidStr b.property_id, oidStr b.user_id,
                    b.start_date, b.end_date, b.guests, b.status⟩, db')
            | none => (.error (.exn "TypeError"), db')

/-! ## Admin routes -/

/-- The `GET /admin/stats` payload. -/
structure Stats where
  users : Nat
  hosts : Nat
  properties : Nat
  bookings : Nat
deriving Repr, DecidableEq

/-- `GET /admin/stats`: the role gate, then four collection counts. -/
def admin_stats (user : SafeUser) (db : DB) : Except Failure Stats :=
  if user.role ≠ "admin" then .error (.http 403 "صلاحيات المسؤول مطلوبة")
  else
    .ok ⟨db.users.length, (db.users.filter (fun u => u.role == "host")).length,
         db.properties.length, db.bookings.length⟩

/-- `GET /admin/users`: the role gate, then every user's public view. -/
def admin_users (user : SafeUser) (db : DB) : Except Failure (List SafeUser) :=
  if user.role ≠ "admin" then .error (.http 403 "صلاحيات المسؤول مطلوبة")
  else .ok (db.users.map user_safe)

/-- `delete_one`: remove the first document matching `pred`, if any. -/
def eraseFirst (pred : α → Bool) : List α → List α
  | [] => []
  | x :: xs => if pred x then xs else x :: eraseFirst pred xs

/-- The `{deleted: True}` payload. -/
structure DeleteResp where
  deleted : Bool
deriving Repr, DecidableEq

/-- `DELETE /admin/properties/{prop_id}`: the role gate, `to_object_id`
(400), then an unconditional `delete_one` and `{deleted: True}` — no
existence check. -/
def admin_delete_property (prop_id : String) (user : SafeUser) (db : DB) :
    Except Failure DeleteResp × DB :=
  if user.role ≠ "admin" then (.error (.http 403 "صلاحيات المسؤول مطلوبة"), db)
  else
    match parseOid prop_id with
    | none => (.error (.http 400 "معرف غير صالح"), db)
    | some oid =>
      (.ok ⟨true⟩, { db with properties := eraseFirst (fun p => p._id == oid) db.properties })

/-! ## Specification-side predicates -/

/-- The search predicate as the specification words it: only active
properties; exact match on each given city/type; the inclusive price
range per given bound; exactly when both dates are given, the
availability-overlap condition with an absent bound counting as
unbounded. -/
def specMatches (ps : ListParams) (p : PropDoc) : Bool :=
  p.is_active
  && (match ps.city with | none => true | some c => p.city == c)
  && (match ps.type with | none => true | some t => p.type == t)
  && (match ps.min_price with | none => true | some m => decide (m ≤ p.price_per_month))
  && (match ps.max_price with | none => true | some m => decide (p.price_per_month ≤ m))
  && (match ps.start_date, ps.end_date with
      | some s, some e =>
        (match p.available_from with | none => true | some af => decide (af ≤ e))
        && (match p.available_to with | none => true | some at_ => decide (s ≤ at_))
      | _, _ => true)

/-- Turn an explicit JSON `null` into an absent field. -/
def nullAbsent (x : Option (Option α)) : Option (Option α) :=
  match x with
  | some none => none
  | v => v

/-- A wire update body with every explicit `null` replaced by absence. -/
def stripNulls (r : RawPropertyUpdate) : RawPropertyUpdate :=
  { title := nullAbsent r.title, description := nullAbsent r.description,
    city := nullAbsent r.city, address := nullAbsent r.address,
    type := nullAbsent r.type, price_per_month := nullAbsent r.price_per_month,
    images := nullAbsent r.images, lat := nullAbsent r.lat, lng := nullAbsent r.lng,
    distance_to_university := nullAbsent r.distance_to_university,
    available_from := nullAbsent r.available_from,
    available_to := nullAbsent r.available_to, is_active := nullAbsent r.is_active }

/-- The wire update body whose every field is an explicit JSON `null`. -/
def allNullUpdate : RawPropertyUpdate :=
  { title := some none, description := some none, city := some none,
    address := some none, type := some none, price_per_month := some none,
    images := some none, lat := some none, lng := some none,
    distance_to_university := some none, available_from := some none,
    available_to := some none, is_active := some none }

/-! ## Helper lemmas -/

theorem find?_append_of_none {p : α → Bool} {l₁ l₂ : List α}
    (h : l₁.find? p = none) : (l₁ ++ l₂).find? p = l₂.find? p := by
  rw [List.find?_append, h, Option.none_or]

theorem find?_fresh_id {key : α → Nat} {l : List α} {x : α}
    (h : ∀ y ∈ l, key y < key x) :
    (l ++ [x]).find? (fun y => key y == key x) = some x := by
  rw [find?_append_of_none]
  · simp [List.find?]
  · exact List.find?_eq_none.mpr (fun y hy => by
      simp only [beq_iff_eq]
      exact Nat.ne_of_lt (h y hy))

theorem find?_updateFirst {p : α → Bool} {f : α → α}
    (hf : ∀ y, p (f y) = p y) (l : List α) :
    (updateFirst p f l).find? p = (l.find? p).map f := by
  induction l with
  | nil => rfl
  | cons x xs ih =>
    by_cases h : p x = true
    · simp [updateFirst, h, List.find?_cons, hf x]
    · have h' : p x = false := by simpa using h
      simp [updateFirst, h', List.find?_cons, ih, hf x]

theorem eraseFirst_of_all_not {p : α → Bool} {l : List α}
    (h : ∀ x ∈ l, p x = false) : eraseFirst p l = l := by
  induction l with
  | nil => rfl
  | cons x xs ih =>
    simp only [eraseFirst, h x (List.mem_cons_self x xs), Bool.false_eq_true, if_false]
    rw [ih (fun y hy => h y (List.mem_cons_of_mem x hy))]

theorem join_nullAbsent (x : Option (Option α)) :
    (nullAbsent x).join = x.join := by
  rcases x with _ | (_ | v) <;> rfl

theorem pySplitAux_all_word {t : List Char} (acc : List Char)
    (hall : ∀ c ∈ t, isPyWs c = false) (hacc : acc ≠ []) :
    pySplitAux t acc = [⟨acc.reverse ++ t⟩] := by
  induction t generalizing acc with
  | nil => simp [pySplitAux, hacc]
  | cons c cs ih =>
    have hc : isPyWs c = false := hall c (List.mem_cons_self c cs)
    simp only [pySplitAux, hc, Bool.false_eq_true, if_false]
    rw [ih (c :: acc) (fun d hd => hall d (List.mem_cons_of_mem c hd)) (by simp)]
    simp

theorem charsStartWith_append (l r : List Char) : charsStartWith l (l ++ r) = true := by
  induction l with
  | nil => rfl
  | cons c cs ih => simp [charsStartWith, ih]

theorem users_refetch (db : DB) (udoc : UserDoc) (hid : udoc._id = db.nextId)
    (hfresh : ∀ u ∈ db.users, u._id < db.nextId) :
    (db.users ++ [udoc]).find? (fun u => u._id == db.nextId) = some udoc := by
  rw [find?_append_of_none]
  · simp [List.find?, hid]
  · exact List.find?_eq_none.mpr (fun y hy => by
      simp only [beq_iff_eq]
      exact Nat.ne_of_lt (hfresh y hy))

theorem bookings_refetch (db : DB) (bdoc : BookingDoc) (hid : bdoc._id = db.nextId)
    (hfresh : ∀ b ∈ db.bookings, b._id < db.nextId) :
    (db.bookings ++ [bdoc]).find? (fun b => b._id == db.nextId) = some bdoc := by
  rw [find?_append_of_none]
  · simp [List.find?, hid]
  · exact List.find?_eq_none.mpr (fun y hy => by
      simp only [beq_iff_eq]
      exact Nat.ne_of_lt (hfresh y hy))

theorem pySplit_bearer (t : String) (ht : t ≠ "")
    (hall : ∀ c ∈ t.data, isPyWs c = false) :
    pySplit ("Bearer " ++ t) = ["Bearer", t] := by
  obtain ⟨l⟩ := t
  have hl : l ≠ [] := fun h => ht (by simp [h])
  have hdata : ("Bearer " ++ (⟨l⟩ : String)).data = "Bearer ".data ++ l := by
    rw [String.data_append]
  unfold pySplit
  rw [hdata]
  show pySplitAux ('B' :: 'e' :: 'a' :: 'r' :: 'e' :: 'r' :: ' ' :: l) [] = _
  simp only [pySplitAux, isPyWs]
  norm_num
  match l, hl with
  | c :: cs, _ =>
    have hc : isPyWs c = false := hall c (List.mem_cons_self c cs)
    simp only [pySplitAux, hc, Bool.false_eq_true, if_false]
    rw [pySplitAux_all_word [c] (fun d hd => hall d (List.mem_cons_of_mem c hd)) (by simp)]
    rfl

/-! ## Concrete fixtures used by the witnesses -/

/-- An environment with no variables set (`os.getenv` returns `None`). -/
def envW : String → Option String := fun _ => none

/-- A caller view with role `host`, owner of `propW`. -/
def hostUserW : SafeUser := ⟨oidStr 3, "Host", "host@x.com", "host", none, none⟩

/-- A caller view with role `user`, same id as `propW`'s host. -/
def plainUserW : SafeUser := ⟨oidStr 3, "Renter", "renter@x.com", "user", none, none⟩

/-- A caller view with role `admin`. -/
def adminUserW : SafeUser := ⟨oidStr 5, "Admin", "admin@x.com", "admin", none, none⟩

/-- An active stored property owned by id 3, with both availability bounds. -/
def propW : PropDoc :=
  ⟨1, "t", "d", "city1", "addr", "room", 100, [], some 7, none, none,
   some 30, some 60, oidStr 3, true, none⟩

/-- An inactive stored property owned by id 3. -/
def propInactiveW : PropDoc :=
  ⟨2, "t2", "d2", "city1", "addr2", "flat", 200, [], none, none, none,
   none, none, oidStr 3, false, none⟩

/-- A database holding the two fixture properties. -/
def dbW : DB := ⟨[], [], [propW, propInactiveW], [], 10⟩

/-- A user document whose stored hash is the hash of `"pw"`. -/
def sessUserW : UserDoc := ⟨2, "Sam", "sam@x.com", hash_password envW "pw", "user", none, none⟩

/-- A session for `sessUserW` expiring at time 604800. -/
def sessW : SessionDoc := ⟨7, 2, "tok123", 604800⟩

/-- A database holding exactly `sessUserW` and `sessW`. -/
def dbSessW : DB := ⟨[sessUserW], [sessW], [], [], 10⟩

/-- A non-owning, non-admin caller view. -/
def strangerW : SafeUser := ⟨oidStr 8, "Sara", "sara@x.com", "host", none, none⟩

/-- The partial update body setting only `price_per_month`. -/
def updBodyW : PropertyUpdate := { price_per_month := some 1500 }

/-- A wire body giving `title` a value, `price_per_month` an explicit
`null`, and `lat` an explicit `null`. -/
def rawUpdW : RawPropertyUpdate :=
  { title := some (some "t9"), price_per_month := some none, lat := some none }

/-! ## SHA-256 sanity anchors (FIPS 180-2 test vectors) -/

set_option maxRecDepth 1000000 in
example : bytesToHex (sha256 (utf8Encode "abc"))
    = "ba7816bf8f01cfea414140de5dae2223b00361a396177a9cb410ff61f20015ad" := by decide

set_option maxRecDepth 1000000 in
example : bytesToHex (sha256 (utf8Encode ""))
    = "e3b0c44298fc1c149afbf4c8996fb92427ae41e4649b934ca495991b7852b855" := by decide

/-! ## Claims -/

/-- C1: signup stores on the created User exactly the `role` string the
(unauthenticated) caller supplied — there is no validation against
{user, host, admin} and no authorization check — so registering with role
`admin` yields a user view that passes the `role == "admin"` gate of the
stats, list-users and admin-delete operations. -/
theorem signup_stores_role_verbatim (env : String → Option String)
    (now : Nat) (tok : String) (body : SignupBody) (db : DB)
    (hnew : db.users.find? (fun u => u.email == body.email) = none)
    (hfresh : ∀ u ∈ db.users, u._id < db.nextId) :
    ∃ u : UserDoc,
      (signup env now tok body db).2.users = db.users ++ [u]
      ∧ u.role = body.role
      ∧ (signup env now tok body db).1 = .ok ⟨tok, user_safe u⟩
      ∧ (body.role = "admin" →
          ∀ (db₂ : DB) (pid : String),
            (∃ st, admin_stats (user_safe u) db₂ = .ok st)
            ∧ (∃ us, admin_users (user_safe u) db₂ = .ok us)
            ∧ (admin_delete_property pid (user_safe u) db₂).1 ≠
                .error (.http 403 "صلاحيات المسؤول مطلوبة")) := by
  have hre := users_refetch db
    ⟨db.nextId, body.full_name, body.email, hash_password env body.password,
     body.role, body.phone, body.city⟩ rfl hfresh
  refine ⟨⟨db.nextId, body.full_name, body.email, hash_password env body.password,
           body.role, body.phone, body.city⟩, ?_, rfl, ?_, ?_⟩
  · simp only [signup, hnew, hre]
  · simp only [signup, hnew, hre]
  · intro hrole db₂ pid
    refine ⟨⟨⟨db₂.users.length, (db₂.users.filter (fun v => v.role == "host")).length,
              db₂.properties.length, db₂.bookings.length⟩, ?_⟩,
            ⟨db₂.users.map user_safe, ?_⟩, ?_⟩
    · simp [admin_stats, user_safe, hrole]
    · simp [admin_users, user_safe, hrole]
    · simp only [admin_delete_property, user_safe, hrole]
      cases h : parseOid pid <;> simp

/-- Witness for C1: a concrete signup with role `admin` into the empty
database. -/
theorem signup_stores_role_verbatim_witness :
    ∃ u : UserDoc,
      (signup envW 0 "tkn" ⟨"Eve", "eve@x.com", "pw", "admin", none, none⟩ emptyDB).2.users
        = emptyDB.users ++ [u]
      ∧ u.role = "admin"
      ∧ (signup envW 0 "tkn" ⟨"Eve", "eve@x.com", "pw", "admin", none, none⟩ emptyDB).1
          = .ok ⟨"tkn", user_safe u⟩
      ∧ ("admin" = "admin" →
          ∀ (db₂ : DB) (pid : String),
            (∃ st, admin_stats (user_safe u) db₂ = .ok st)
            ∧ (∃ us, admin_users (user_safe u) db₂ = .ok us)
            ∧ (admin_delete_property pid (user_safe u) db₂).1 ≠
                .error (.http 403 "صلاحيات المسؤول مطلوبة")) :=
  signup_stores_role_verbatim envW 0 "tkn" ⟨"Eve", "eve@x.com", "pw", "admin", none, none⟩
    emptyDB rfl (by simp [emptyDB])

/-- C2: the bearer gate's handling of absent and malformed Authorization
headers. An absent header, an empty value, and a value not starting with
the case-insensitive `bearer ` scheme are each rejected 401 — but a value
consisting of the scheme with no following token slips past the prefix
check and crashes `authorization.split()[1]` with an `IndexError`
(a generic 500), not a 401, contradicting the claim that every malformed
header is rejected with 401. -/
theorem bearer_header_gate :
    get_current_user none 0 emptyDB = .error (.http 401 "يرجى تسجيل الدخول")
    ∧ get_current_user (some "") 0 emptyDB = .error (.http 401 "يرجى تسجيل الدخول")
    ∧ get_current_user (some "Token abc") 0 emptyDB = .error (.http 401 "يرجى تسجيل الدخول")
    ∧ get_current_user (some "Bearer") 0 emptyDB = .error (.http 401 "يرجى تسجيل الدخول")
    ∧ get_current_user (some "bEaReR sometok") 0 emptyDB
        = .error (.http 401 "انتهت الجلسة أو غير صالحة")
    ∧ get_current_user (some "Bearer ") 0 emptyDB = .error (.exn "IndexError")
    ∧ get_current_user (some "BEARER   ") 0 emptyDB = .error (.exn "IndexError") :=
  ⟨rfl, rfl, rfl, rfl, rfl, rfl, rfl⟩

/-- C3: the credential stored by signup is the lowercase hexadecimal
SHA-256 digest of the UTF-8 encoding of password‖salt, the salt read from
`PW_SALT` with the fixed fallback `"saknli_salt"`, and login succeeds
exactly when recomputing that same transform on the submitted password
equals the stored hash of the user found by e-mail. -/
theorem password_hash_scheme (env : String → Option String) (now : Nat) (tok : String)
    (body : SignupBody) (db : DB)
    (hnew : db.users.find? (fun u => u.email == body.email) = none)
    (hfresh : ∀ u ∈ db.users, u._id < db.nextId) :
    (∃ u : UserDoc,
       (signup env now tok body db).2.users = db.users ++ [u]
       ∧ u.password_hash =
           bytesToHex (sha256 (utf8Encode
             (body.password ++ (env "PW_SALT").getD "saknli_salt"))))
    ∧ (∀ (lb : LoginBody) (u : UserDoc),
        db.users.find? (fun v => v.email == lb.email) = some u →
        ((∃ r db', login env now tok lb db = (.ok r, db')) ↔
          u.password_hash =
            bytesToHex (sha256 (utf8Encode
              (lb.password ++ (env "PW_SALT").getD "saknli_salt"))))) := by
  constructor
  · have hre := users_refetch db
      ⟨db.nextId, body.full_name, body.email, hash_password env body.password,
       body.role, body.phone, body.city⟩ rfl hfresh
    refine ⟨⟨db.nextId, body.full_name, body.email, hash_password env body.password,
             body.role, body.phone, body.city⟩, ?_, rfl⟩
    simp only [signup, hnew, hre]
  · intro lb u hu
    by_cases h : u.password_hash = hash_password env lb.password
    · simp only [login, hu, h, ne_eq, not_true_eq_false, if_false]
      exact ⟨fun _ => rfl, fun _ => ⟨⟨tok, user_safe u⟩, _, rfl⟩⟩
    · simp only [login, hu, ne_eq, h, not_false_eq_true, if_true]
      constructor
      · rintro ⟨r, db', hcontra⟩
        exact absurd (congrArg Prod.fst hcontra) (by simp)
      · intro hick
        exact absurd hick h

/-- Witness for C3: a concrete signup and the login iff at a user whose
stored hash is the hash of `"pw"`. -/
theorem password_hash_scheme_witness :
    ((emptyDB.users.find? (fun u => u.email == "eve@x.com") = none)
      ∧ ∀ u ∈ emptyDB.users, u._id < emptyDB.nextId)
    ∧ ((∃ u : UserDoc,
         (signup envW 0 "tkn" ⟨"Eve", "eve@x.com", "pw", "user", none, none⟩ emptyDB).2.users
           = emptyDB.users ++ [u]
         ∧ u.password_hash =
             bytesToHex (sha256 (utf8Encode
               ("pw" ++ ((envW "PW_SALT").getD "saknli_salt")))))
       ∧ (∀ (lb : LoginBody) (u : UserDoc),
           emptyDB.users.find? (fun v => v.email == lb.email) = some u →
           ((∃ r db', login envW 0 "tkn" lb emptyDB = (.ok r, db')) ↔
             u.password_hash =
               bytesToHex (sha256 (utf8Encode
                 (lb.password ++ ((envW "PW_SALT").getD "saknli_salt"))))))) :=
  ⟨⟨rfl, by simp [emptyDB]⟩,
   password_hash_scheme envW 0 "tkn" ⟨"Eve", "eve@x.com", "pw", "user", none, none⟩
     emptyDB rfl (by simp [emptyDB])⟩

/-- C8: signup on an already-registered e-mail fails `AlreadyExists` (400)
and leaves the database — in particular the user collection — unchanged;
on a fresh e-mail it appends exactly one user and one session and answers
`{token, user}` where the user view is `user_safe` of the stored record:
its identifier is exposed under the field `id`, it does not depend on
`password_hash`, and its role is `"user"` when the body supplied none. -/
theorem signup_duplicate_email_and_view (env : String → Option String) (now : Nat)
    (tok : String) (raw : RawSignupBody) (db : DB)
    (hfresh : ∀ u ∈ db.users, u._id < db.nextId) :
    ((∃ u ∈ db.users, u.email = raw.email) →
       signup env now tok (parseSignupBody raw) db
         = (.error (.http 400 "البريد الإلكتروني مستخدم مسبقاً"), db))
    ∧ (db.users.find? (fun u => u.email == raw.email) = none →
        ∃ (u : UserDoc) (s : SessionDoc),
          (signup env now tok (parseSignupBody raw) db).2.users = db.users ++ [u]
          ∧ (signup env now tok (parseSignupBody raw) db).2.sessions = db.sessions ++ [s]
          ∧ (signup env now tok (parseSignupBody raw) db).1 = .ok ⟨tok, user_safe u⟩
          ∧ (user_safe u).id = oidStr u._id
          ∧ (raw.role = none → u.role = "user"))
    ∧ (∀ (v : UserDoc) (h : String),
        user_safe { v with password_hash := h } = user_safe v) := by
  refine ⟨?_, ?_, fun v h => rfl⟩
  · rintro ⟨u, hu, he⟩
    have hsome : (db.users.find? (fun v => v.email == (parseSignupBody raw).email)).isSome := by
      refine List.find?_isSome.mpr ⟨u, hu, ?_⟩
      simp [parseSignupBody, he]
    obtain ⟨w, hw⟩ := Option.isSome_iff_exists.mp hsome
    simp only [signup, hw]
  · intro hnone
    have hnone' : db.users.find? (fun u => u.email == (parseSignupBody raw).email) = none := hnone
    have hre := users_refetch db
      ⟨db.nextId, (parseSignupBody raw).full_name, (parseSignupBody raw).email,
       hash_password env (parseSignupBody raw).password,
       (parseSignupBody raw).role, (parseSignupBody raw).phone,
       (parseSignupBody raw).city⟩ rfl hfresh
    refine ⟨⟨db.nextId, (parseSignupBody raw).full_name, (parseSignupBody raw).email,
             hash_password env (parseSignupBody raw).password,
             (parseSignupBody raw).role, (parseSignupBody raw).phone,
             (parseSignupBody raw).city⟩,
            ⟨db.nextId + 1, db.nextId, tok, now + sevenDays⟩, ?_, ?_, ?_, rfl, ?_⟩
    · simp only [signup, hnone', hre]
    · simp only [signup, hnone', hre]
    · simp only [signup, hnone', hre]
    · intro hr
      simp [parseSignupBody, hr]

/-- Witness for C8: a database holding one user; signing up with that
user's e-mail, and with a fresh e-mail carrying no role. -/
theorem signup_duplicate_email_and_view_witness :
    (∀ u ∈ (DB.mk [⟨4, "Old", "old@x.com", "h", "user", none, none⟩] [] [] [] 9).users,
       u._id < (DB.mk [⟨4, "Old", "old@x.com", "h", "user", none, none⟩] [] [] [] 9).nextId)
    ∧ (signup envW 0 "tkn"
         (parseSignupBody ⟨"Dup", "old@x.com", "pw", none, none, none⟩)
         (DB.mk [⟨4, "Old", "old@x.com", "h", "user", none, none⟩] [] [] [] 9)
       = (.error (.http 400 "البريد الإلكتروني مستخدم مسبقاً"),
          DB.mk [⟨4, "Old", "old@x.com", "h", "user", none, none⟩] [] [] [] 9))
    ∧ (∃ (u : UserDoc) (s : SessionDoc),
        (signup envW 0 "tkn" (parseSignupBody ⟨"New", "new@x.com", "pw", none, none, none⟩)
            (DB.mk [⟨4, "Old", "old@x.com", "h", "user", none, none⟩] [] [] [] 9)).2.users
          = (DB.mk [⟨4, "Old", "old@x.com", "h", "user", none, none⟩] [] [] [] 9).users ++ [u]
        ∧ (signup envW 0 "tkn" (parseSignupBody ⟨"New", "new@x.com", "pw", none, none, none⟩)
            (DB.mk [⟨4, "Old", "old@x.com", "h", "user", none, none⟩] [] [] [] 9)).2.sessions
          = (DB.mk [⟨4, "Old", "old@x.com", "h", "user", none, none⟩] [] [] [] 9).sessions ++ [s]
        ∧ (signup envW 0 "tkn" (parseSignupBody ⟨"New", "new@x.com", "pw", none, none, none⟩)
            (DB.mk [⟨4, "Old", "old@x.com", "h", "user", none, none⟩] [] [] [] 9)).1
          = .ok ⟨"tkn", user_safe u⟩
        ∧ (user_safe u).id = oidStr u._id
        ∧ ((⟨"New", "new@x.com", "pw", none, none, none⟩ : RawSignupBody).role = none →
             u.role = "user")) :=
  ⟨by simp,
   (signup_duplicate_email_and_view envW 0 "tkn" ⟨"Dup", "old@x.com", "pw", none, none, none⟩
      (DB.mk [⟨4, "Old", "old@x.com", "h", "user", none, none⟩] [] [] [] 9)
      (by simp)).1 ⟨⟨4, "Old", "old@x.com", "h", "user", none, none⟩, by simp, rfl⟩,
   (signup_duplicate_email_and_view envW 0 "tkn" ⟨"New", "new@x.com", "pw", none, none, none⟩
      (DB.mk [⟨4, "Old", "old@x.com", "h", "user", none, none⟩] [] [] [] 9)
      (by simp)).2.1 (by rfl)⟩

/-- C4: sessions created by signup and by login expire exactly 7 days
(7·86400 seconds) after issuance, and the bearer gate accepts a session
token exactly while the current time is strictly before `expires_at` —
at or after that instant it answers 401, the session record being merely
passed over by the lookup (the gate performs no write). -/
theorem session_seven_day_expiry (env : String → Option String) (now : Nat)
    (tok : String) (body : SignupBody) (lb : LoginBody) (db : DB)
    (s : SessionDoc) (u : UserDoc)
    (hnew : db.users.find? (fun v => v.email == body.email) = none)
    (hfresh : ∀ v ∈ db.users, v._id < db.nextId)
    (hlog : db.users.find? (fun v => v.email == lb.email) = some u)
    (hpw : u.password_hash = hash_password env lb.password)
    (hs : db.sessions = [s])
    (hus : db.users = [u])
    (hid : u._id = s.user_id)
    (ht1 : s.token ≠ "")
    (ht2 : ∀ c ∈ s.token.data, isPyWs c = false) :
    ((signup env now tok body db).2.sessions
       = db.sessions ++ [⟨db.nextId + 1, db.nextId, tok, now + 7 * 86400⟩])
    ∧ ((login env now tok lb db).2.sessions
       = db.sessions ++ [⟨db.nextId, u._id, tok, now + 7 * 86400⟩])
    ∧ (∀ now' : Nat,
        (now' < s.expires_at →
          get_current_user (some ("Bearer " ++ s.token)) now' db = .ok (user_safe u))
        ∧ (s.expires_at ≤ now' →
          get_current_user (some ("Bearer " ++ s.token)) now' db
            = .error (.http 401 "انتهت الجلسة أو غير صالحة"))) := by
  have hne : ¬ ("Bearer " ++ s.token = "") := by
    intro h
    have h' := congrArg String.data h
    rw [String.data_append] at h'
    simp at h'
  have hsw : pyStartsWith (pyLower ("Bearer " ++ s.token)) "bearer " = true := by
    show charsStartWith "bearer ".data (("Bearer " ++ s.token).data.map Char.toLower) = true
    rw [String.data_append, List.map_append]
    have hbl : "Bearer ".data.map Char.toLower = "bearer ".data := by decide
    rw [hbl]
    exact charsStartWith_append _ _
  have hsplit : pySplit ("Bearer " ++ s.token) = ["Bearer", s.token] :=
    pySplit_bearer s.token ht1 ht2
  refine ⟨?_, ?_, ?_⟩
  · have hre := users_refetch db
      ⟨db.nextId, body.full_name, body.email, hash_password env body.password,
       body.role, body.phone, body.city⟩ rfl hfresh
    simp only [signup, hnew, hre, sevenDays]
  · simp only [login, hlog, hpw, ne_eq, not_true_eq_false, if_false, sevenDays]
  · intro now'
    constructor
    · intro hlt
      simp only [get_current_user, if_neg hne, if_neg (not_not_intro hsw), hsplit, hs, hus,
                 List.find?_cons, beq_self_eq_true, Bool.true_and, decide_eq_true hlt]
      simp [hid]
    · intro hge
      have hd : decide (now' < s.expires_at) = false := by
        simp [Nat.not_lt_of_le hge]
      simp only [get_current_user, if_neg hne, if_neg (not_not_intro hsw), hsplit, hs,
                 List.find?_cons, beq_self_eq_true, Bool.true_and, hd]
      simp [List.find?]

/-- Witness for C4 at the fixture session, including both sides of the
expiry boundary. -/
theorem session_seven_day_expiry_witness :
    (((signup envW 5 "tkn" ⟨"Eve", "eve@x.com", "pw2", "user", none, none⟩ dbSessW).2.sessions
        = dbSessW.sessions ++ [⟨dbSessW.nextId + 1, dbSessW.nextId, "tkn", 5 + 7 * 86400⟩])
     ∧ ((login envW 5 "tkn" ⟨"sam@x.com", "pw"⟩ dbSessW).2.sessions
        = dbSessW.sessions ++ [⟨dbSessW.nextId, sessUserW._id, "tkn", 5 + 7 * 86400⟩])
     ∧ ∀ now' : Nat,
        (now' < sessW.expires_at →
          get_current_user (some ("Bearer " ++ sessW.token)) now' dbSessW
            = .ok (user_safe sessUserW))
        ∧ (sessW.expires_at ≤ now' →
          get_current_user (some ("Bearer " ++ sessW.token)) now' dbSessW
            = .error (.http 401 "انتهت الجلسة أو غير صالحة")))
    ∧ (604799 < sessW.expires_at ∧ sessW.expires_at ≤ 604800) := by
  refine ⟨session_seven_day_expiry envW 5 "tkn" ⟨"Eve", "eve@x.com", "pw2", "user", none, none⟩
    ⟨"sam@x.com", "pw"⟩ dbSessW sessW sessUserW ?_ ?_ ?_ rfl rfl rfl rfl ?_ ?_, by decide⟩
  · simp [dbSessW, sessUserW, List.find?]
  · simp [dbSessW, sessUserW]
  · simp [dbSessW, sessUserW, List.find?]
  · decide
  · decide

/-- C5: the public search returns exactly the active properties passing
the spec's predicate — exact match on each given (non-empty) city/type,
inclusive price range per given bound, and, exactly when both dates are
given, the availability-overlap condition with absent bounds counting as
unbounded — provided the result fits under the cursor limit; and direct
fetch-by-id returns the matching property with no regard to `is_active`. -/
theorem list_properties_filter (ps : ListParams) (db : DB)
    (hcity : ∀ c, ps.city = some c → c ≠ "")
    (htype : ∀ t, ps.type = some t → t ≠ "")
    (hlimn : ps.limit ≠ 0)
    (hlen : db.properties.length ≤ ps.limit.natAbs) :
    list_properties ps db = (db.properties.filter (specMatches ps)).map propOut
    ∧ (∀ (pid : String) (oid : Nat) (p : PropDoc),
        parseOid pid = some oid →
        db.properties.find? (fun q => q._id == oid) = some p →
        get_property pid db = .ok (propOut p)) := by
  constructor
  · unfold list_properties mongoLimit
    rw [if_neg hlimn,
        List.take_of_length_le (le_trans (List.length_filter_le _ _) hlen)]
    congr 1
    apply List.filter_congr
    intro p _
    have hcB : (match ps.city with
                | none => true
                | some c => if c = "" then true else p.city == c)
             = (match ps.city with | none => true | some c => p.city == c) := by
      cases hc : ps.city with
      | none => rfl
      | some c => simp [if_neg (hcity c hc)]
    have htB : (match ps.type with
                | none => true
                | some t => if t = "" then true else p.type == t)
             = (match ps.type with | none => true | some t => p.type == t) := by
      cases htp : ps.type with
      | none => rfl
      | some t => simp [if_neg (htype t htp)]
    unfold matchesQuery specMatches
    rw [hcB, htB]
  · intro pid oid p hparse hfind
    simp only [get_property, hparse, hfind]

/-- Witness for C5: a filtered search over the two fixture properties and
a direct fetch of the inactive one. -/
theorem list_properties_filter_witness :
    (∀ c, (some "city1" : Option String) = some c → c ≠ "")
    ∧ ((50 : Int) ≠ 0 ∧ dbW.properties.length ≤ (50 : Int).natAbs)
    ∧ list_properties ⟨some "city1", none, some 50, some 150, some 35, some 55, 50⟩ dbW
        = (dbW.properties.filter
            (specMatches ⟨some "city1", none, some 50, some 150, some 35, some 55, 50⟩)).map propOut
    ∧ get_property (oidStr 2) dbW = .ok (propOut propInactiveW)
    ∧ list_properties ⟨some "city1", none, some 50, some 150, some 35, some 55, 50⟩ dbW
        = [propOut propW] := by
  have h := list_properties_filter ⟨some "city1", none, some 50, some 150, some 35, some 55, 50⟩
    dbW (fun c hc => by cases hc; decide) (fun t ht => Option.noConfusion ht)
    (by decide) (by decide)
  refine ⟨fun c hc => by cases hc; decide, ⟨by decide, by decide⟩, h.1,
          h.2 (oidStr 2) 2 propInactiveW (by decide) (by decide), ?_⟩
  rw [h.1]
  decide

/-- C6 counterexample: with a valid date range and an existing property,
a `guests` value of 0 does **not** create a pending booking — the
`BookingSchema` bound `ge=1, le=10` (absent from `BookingCreate`) raises
an uncaught `ValidationError`, leaving the database unchanged; and a
malformed property id fails `InvalidInput` (400) even though the end date
does not precede the start date, so the "400 iff end < start" reading is
false as well. -/
theorem create_booking_claim_counterexample :
    (create_booking ⟨oidStr 1, 10, 20, 0⟩ hostUserW dbW
       = (.error (.exn "ValidationError"), dbW))
    ∧ (¬ ∃ (v : BookingView) (db' : DB),
         create_booking ⟨oidStr 1, 10, 20, 0⟩ hostUserW dbW = (.ok v, db'))
    ∧ (create_booking ⟨"zz", 10, 20, 1⟩ hostUserW dbW
       = (.error (.http 400 "معرف غير صالح"), dbW))
    ∧ ¬ ((20 : Nat) < 10) := by
  refine ⟨rfl, ?_, rfl, by decide⟩
  rintro ⟨v, db', h⟩
  rw [(show create_booking ⟨oidStr 1, 10, 20, 0⟩ hostUserW dbW
        = (.error (.exn "ValidationError"), dbW) from rfl)] at h
  exact absurd (congrArg Prod.fst h) (by simp)

/-- C6 (amended): booking creation fails `InvalidInput` (400) iff the end
date precedes the start date **or the property id string is malformed**;
fails `NotFound` (404) when the well-formed id resolves to no property;
and otherwise, **provided `guests` lies in 1..10**, unconditionally creates
a `pending` booking referencing the property and the caller — no overlap
check against the existing bookings, whatever they are — returning it with
`id`, `property_id` and `user_id` as plain id strings; a `guests` value
outside 1..10 instead raises an uncaught validation error and writes
nothing. -/
theorem create_booking_contract (body : BookingCreate) (user : SafeUser) (db : DB)
    (uoid : Nat)
    (huid : parseOid user.id = some uoid)
    (hfresh : ∀ b ∈ db.bookings, b._id < db.nextId) :
    ((∃ d, (create_booking body user db).1 = .error (.http 400 d))
      ↔ (body.end_date < body.start_date ∨ parseOid body.property_id = none))
    ∧ (∀ poid, body.start_date ≤ body.end_date →
        parseOid body.property_id = some poid →
        db.properties.find? (fun p => p._id == poid) = none →
        create_booking body user db = (.error (.http 404 "السكن غير موجود"), db))
    ∧ (∀ poid prop, body.start_date ≤ body.end_date →
        parseOid body.property_id = some poid →
        db.properties.find? (fun p => p._id == poid) = some prop →
        ¬ (1 ≤ body.guests ∧ body.guests ≤ 10) →
        create_booking body user db = (.error (.exn "ValidationError"), db))
    ∧ (∀ poid prop, body.start_date ≤ body.end_date →
        parseOid body.property_id = some poid →
        db.properties.find? (fun p => p._id == poid) = some prop →
        1 ≤ body.guests → body.guests ≤ 10 →
        create_booking body user db =
          (.ok ⟨oidStr db.nextId, oidStr poid, oidStr uoid,
                body.start_date, body.end_date, body.guests, "pending"⟩,
           { db with
             bookings := db.bookings ++
               [⟨db.nextId, poid, uoid, body.start_date, body.end_date,
                 body.guests, "pending"⟩],
             nextId := db.nextId + 1 })) := by
  refine ⟨⟨?_, ?_⟩, ?_, ?_, ?_⟩
  · rintro ⟨d, hd⟩
    by_cases h1 : body.end_date < body.start_date
    · exact .inl h1
    · refine .inr ?_
      cases hp : parseOid body.property_id with
      | none => rfl
      | some poid =>
        exfalso
        simp only [create_booking, if_neg h1, hp] at hd
        cases hf : db.properties.find? (fun p => p._id == poid) with
        | none =>
          simp only [hf] at hd
          simp at hd
        | some prop =>
          simp only [hf] at hd
          by_cases hg : 1 ≤ body.guests ∧ body.guests ≤ 10
          · rw [if_neg (not_not_intro hg)] at hd
            simp only [huid] at hd
            have hbre := bookings_refetch db
              ⟨db.nextId, poid, uoid, body.start_date, body.end_date,
               body.guests, "pending"⟩ rfl hfresh
            simp only [hbre] at hd
            simp at hd
          · rw [if_pos hg] at hd
            simp at hd
  · rintro (h1 | h2)
    · exact ⟨"نطاق التواريخ غير صالح", by simp [create_booking, h1]⟩
    · by_cases h1 : body.end_date < body.start_date
      · exact ⟨"نطاق التواريخ غير صالح", by simp [create_booking, h1]⟩
      · exact ⟨"معرف غير صالح", by simp [create_booking, h1, h2]⟩
  · intro poid hse hp hf
    simp only [create_booking, if_neg (Nat.not_lt.mpr hse), hp, hf]
  · intro poid prop hse hp hf hg
    simp only [create_booking, if_neg (Nat.not_lt.mpr hse), hp, hf, if_pos hg]
  · intro poid prop hse hp hf hg1 hg2
    have hgg : ¬¬(1 ≤ body.guests ∧ body.guests ≤ 10) := not_not_intro ⟨hg1, hg2⟩
    have hbre := bookings_refetch db
      ⟨db.nextId, poid, uoid, body.start_date, body.end_date, body.guests, "pending"⟩
      rfl hfresh
    simp only [create_booking, if_neg (Nat.not_lt.mpr hse), hp, hf, huid, hbre]
    rw [if_neg hgg]

/-- Witness for C6 (amended): a successful creation at guests 2 into a
database that already holds a fully overlapping pending booking for the
same property, plus the error branches at concrete inputs. -/
theorem create_booking_contract_witness :
    (parseOid hostUserW.id = some 3
      ∧ ∀ b ∈ (DB.mk [] [] [propW] [⟨6, 1, 3, 10, 20, 1, "pending"⟩] 10).bookings,
          b._id < (DB.mk [] [] [propW] [⟨6, 1, 3, 10, 20, 1, "pending"⟩] 10).nextId)
    ∧ (((∃ d, (create_booking ⟨oidStr 1, 10, 20, 2⟩ hostUserW
            (DB.mk [] [] [propW] [⟨6, 1, 3, 10, 20, 1, "pending"⟩] 10)).1
          = .error (.http 400 d))
        ↔ ((20 : Nat) < 10 ∨ parseOid (oidStr 1) = none)))
    ∧ (create_booking ⟨oidStr 1, 10, 20, 2⟩ hostUserW
         (DB.mk [] [] [propW] [⟨6, 1, 3, 10, 20, 1, "pending"⟩] 10)
       = (.ok ⟨oidStr 10, oidStr 1, oidStr 3, 10, 20, 2, "pending"⟩,
          DB.mk [] [] [propW]
            [⟨6, 1, 3, 10, 20, 1, "pending"⟩, ⟨10, 1, 3, 10, 20, 2, "pending"⟩] 11)) := by
  have h := create_booking_contract ⟨oidStr 1, 10, 20, 2⟩ hostUserW
    (DB.mk [] [] [propW] [⟨6, 1, 3, 10, 20, 1, "pending"⟩] 10) 3
    (by decide) (by decide)
  exact ⟨⟨by decide, by decide⟩, h.1,
         h.2.2.2 1 propW (by decide) (by decide) (by decide) (by decide) (by decide)⟩

/-- C7: property update answers 400 on a malformed id, 404 on a missing
property, 403 unless the caller is admin or the property's `host_id`
equals the caller's id; with no provided fields it answers
`{updated: false}` and writes nothing; otherwise it rewrites exactly the
first matching stored document through `applyUpdate`, which overwrites
precisely the provided fields, stamps `updated_at` with the current
server time, and leaves `_id`, `host_id` and every unprovided field
unchanged. -/
theorem update_property_contract (now : Nat) (prop_id : String) (body : PropertyUpdate)
    (user : SafeUser) (db : DB) :
    (parseOid prop_id = none →
      update_property now prop_id body user db = (.error (.http 400 "معرف غير صالح"), db))
    ∧ (∀ oid, parseOid prop_id = some oid →
        db.properties.find? (fun q => q._id == oid) = none →
        update_property now prop_id body user db = (.error (.http 404 "السكن غير موجود"), db))
    ∧ (∀ oid p, parseOid prop_id = some oid →
        db.properties.find? (fun q => q._id == oid) = some p →
        user.role ≠ "admin" → p.host_id ≠ user.id →
        update_property now prop_id body user db = (.error (.http 403 "ليس لديك إذن للتعديل"), db))
    ∧ (∀ oid p, parseOid prop_id = some oid →
        db.properties.find? (fun q => q._id == oid) = some p →
        (user.role = "admin" ∨ p.host_id = user.id) →
        noFields body = true →
        update_property now prop_id body user db = (.ok .notUpdated, db))
    ∧ (∀ oid p, parseOid prop_id = some oid →
        db.properties.find? (fun q => q._id == oid) = some p →
        (user.role = "admin" ∨ p.host_id = user.id) →
        noFields body = false →
        update_property now prop_id body user db =
          (.ok (.updated (propOut (applyUpdate body now p))),
           { db with properties :=
               updateFirst (fun q => q._id == p._id) (applyUpdate body now) db.properties })
        ∧ (applyUpdate body now p).updated_at = some now
        ∧ (applyUpdate body now p)._id = p._id
        ∧ (applyUpdate body now p).host_id = p.host_id
        ∧ (applyUpdate body now p).title = body.title.getD p.title
        ∧ (applyUpdate body now p).description = body.description.getD p.description
        ∧ (applyUpdate body now p).city = body.city.getD p.city
        ∧ (applyUpdate body now p).address = body.address.getD p.address
        ∧ (applyUpdate body now p).type = body.type.getD p.type
        ∧ (applyUpdate body now p).price_per_month = body.price_per_month.getD p.price_per_month
        ∧ (applyUpdate body now p).images = body.images.getD p.images
        ∧ (applyUpdate body now p).is_active = body.is_active.getD p.is_active
        ∧ (applyUpdate body now p).lat = body.lat.or p.lat
        ∧ (applyUpdate body now p).lng = body.lng.or p.lng
        ∧ (applyUpdate body now p).distance_to_university
            = body.distance_to_university.or p.distance_to_university
        ∧ (applyUpdate body now p).available_from = body.available_from.or p.available_from
        ∧ (applyUpdate body now p).available_to = body.available_to.or p.available_to) := by
  refine ⟨?_, ?_, ?_, ?_, ?_⟩
  · intro hparse
    simp only [update_property, hparse]
  · intro oid hparse hfind
    simp only [update_property, hparse, hfind]
  · intro oid p hparse hfind hr hh
    simp only [update_property, hparse, hfind]
    rw [if_pos ⟨hr, hh⟩]
  · intro oid p hparse hfind hauth hnf
    have hauthn : ¬(user.role ≠ "admin" ∧ p.host_id ≠ user.id) := by
      rcases hauth with h | h
      · exact fun hc => hc.1 h
      · exact fun hc => hc.2 h
    simp only [update_property, hparse, hfind]
    rw [if_neg hauthn]
    simp [hnf]
  · intro oid p hparse hfind hauth hnf
    have hauthn : ¬(user.role ≠ "admin" ∧ p.host_id ≠ user.id) := by
      rcases hauth with h | h
      · exact fun hc => hc.1 h
      · exact fun hc => hc.2 h
    have hpid : p._id = oid := by
      have := List.find?_some hfind
      simpa using this
    have hbase : db.properties.find? (fun q => q._id == p._id) = some p := by
      rw [hpid]; exact hfind
    have hupd : (updateFirst (fun q => q._id == p._id) (applyUpdate body now)
                  db.properties).find? (fun q => q._id == p._id)
                = some (applyUpdate body now p) := by
      rw [@find?_updateFirst _ (fun q => q._id == p._id) (applyUpdate body now)
            (fun y => rfl) db.properties, hbase]
      rfl
    refine ⟨?_, rfl, rfl, rfl, rfl, rfl, rfl, rfl, rfl, rfl, rfl, rfl,
            ?_, ?_, ?_, ?_, ?_⟩
    · simp only [update_property, hparse, hfind]

      rw [if_neg hauthn]
      simp only [hnf, Bool.false_eq_true, if_false, hupd]
    · cases hb : body.lat <;> simp [applyUpdate, Option.or, hb]
    · cases hb : body.lng <;> simp [applyUpdate, Option.or, hb]
    · cases hb : body.distance_to_university <;> simp [applyUpdate, Option.or, hb]
    · cases hb : body.available_from <;> simp [applyUpdate, Option.or, hb]
    · cases hb : body.available_to <;> simp [applyUpdate, Option.or, hb]

/-- Witness for C7: the five branches at concrete inputs, and the
frame facts of the one-field update. -/
theorem update_property_contract_witness :
    (update_property 99 "xyz" {} hostUserW dbW = (.error (.http 400 "معرف غير صالح"), dbW))
    ∧ (update_property 99 (oidStr 4) {} hostUserW dbW
        = (.error (.http 404 "السكن غير موجود"), dbW))
    ∧ (update_property 99 (oidStr 1) updBodyW strangerW dbW
        = (.error (.http 403 "ليس لديك إذن للتعديل"), dbW))
    ∧ (update_property 99 (oidStr 1) {} hostUserW dbW = (.ok .notUpdated, dbW))
    ∧ (update_property 99 (oidStr 1) updBodyW hostUserW dbW =
        (.ok (.updated (propOut (applyUpdate updBodyW 99 propW))),
         { dbW with properties :=
             (updateFirst (fun q => q._id == propW._id) (applyUpdate updBodyW 99)
               dbW.properties) }))
    ∧ (applyUpdate updBodyW 99 propW).price_per_month = 1500
    ∧ (applyUpdate updBodyW 99 propW).title = propW.title
    ∧ (applyUpdate updBodyW 99 propW).available_from = propW.available_from
    ∧ (applyUpdate updBodyW 99 propW).updated_at = some 99 :=
  ⟨(update_property_contract 99 "xyz" {} hostUserW dbW).1 (by decide),
   (update_property_contract 99 (oidStr 4) {} hostUserW dbW).2.1 4 (by decide) (by decide),
   (update_property_contract 99 (oidStr 1) updBodyW strangerW dbW).2.2.1 1 propW
     (by decide) (by decide) (by decide) (by decide),
   (update_property_contract 99 (oidStr 1) {} hostUserW dbW).2.2.2.1 1 propW
     (by decide) (by decide) (.inr (by decide)) (by decide),
   ((update_property_contract 99 (oidStr 1) updBodyW hostUserW dbW).2.2.2.2 1 propW
     (by decide) (by decide) (.inr (by decide)) (by decide)).1,
   by decide, by decide, by decide, by decide⟩

/-- C9: stats, list-users and admin-delete each answer 403 to every
authenticated caller whose role is not `admin`, whatever it owns; for an
admin the delete parses the id (400 when malformed), then deletes
unconditionally — the first document with that id if one exists, a silent
no-op otherwise — and answers `{deleted: true}` in every non-error case. -/
theorem admin_only_operations (user : SafeUser) (db : DB) (prop_id : String) :
    (user.role ≠ "admin" →
      admin_stats user db = .error (.http 403 "صلاحيات المسؤول مطلوبة")
      ∧ admin_users user db = .error (.http 403 "صلاحيات المسؤول مطلوبة")
      ∧ admin_delete_property prop_id user db
          = (.error (.http 403 "صلاحيات المسؤول مطلوبة"), db))
    ∧ (user.role = "admin" → ∀ oid, parseOid prop_id = some oid →
        admin_delete_property prop_id user db
          = (.ok ⟨true⟩,
             { db with properties := eraseFirst (fun p => p._id == oid) db.properties })
        ∧ ((∀ p ∈ db.properties, p._id ≠ oid) →
            eraseFirst (fun p => p._id == oid) db.properties = db.properties)) := by
  constructor
  · intro hr
    exact ⟨by simp [admin_stats, hr], by simp [admin_users, hr],
           by simp [admin_delete_property, hr]⟩
  · intro hr oid hparse
    constructor
    · simp [admin_delete_property, hr, hparse]
    · intro hno
      exact eraseFirst_of_all_not (fun p hp => by
        simp only [beq_eq_false_iff_ne, ne_eq]
        exact hno p hp)

/-- Witness for C9: a role-`user` caller that owns the fixture property is
still refused, and an admin delete of an existing and of an absent id. -/
theorem admin_only_operations_witness :
    (plainUserW.role ≠ "admin"
      ∧ plainUserW.id = propW.host_id)
    ∧ (admin_stats plainUserW dbW = .error (.http 403 "صلاحيات المسؤول مطلوبة")
      ∧ admin_users plainUserW dbW = .error (.http 403 "صلاحيات المسؤول مطلوبة")
      ∧ admin_delete_property (oidStr 1) plainUserW dbW
          = (.error (.http 403 "صلاحيات المسؤول مطلوبة"), dbW))
    ∧ (admin_delete_property (oidStr 1) adminUserW dbW
        = (.ok ⟨true⟩,
           { dbW with properties := eraseFirst (fun p => p._id == 1) dbW.properties }))
    ∧ eraseFirst (fun p : PropDoc => p._id == 1) dbW.properties = [propInactiveW]
    ∧ (admin_delete_property (oidStr 4) adminUserW dbW
        = (.ok ⟨true⟩,
           { dbW with properties := eraseFirst (fun p => p._id == 4) dbW.properties }))
    ∧ eraseFirst (fun p : PropDoc => p._id == 4) dbW.properties = dbW.properties :=
  ⟨⟨by decide, by decide⟩,
   (admin_only_operations plainUserW dbW (oidStr 1)).1 (by decide),
   ((admin_only_operations adminUserW dbW (oidStr 1)).2 rfl 1 (by decide)).1,
   by decide,
   ((admin_only_operations adminUserW dbW (oidStr 4)).2 rfl 4 (by decide)).1,
   ((admin_only_operations adminUserW dbW (oidStr 4)).2 rfl 4 (by decide)).2
     (by decide)⟩

/-- C10: in property update, a field submitted as JSON `null` is parsed
to the same `None` as an absent field, so the `exclude_none` dump drops
it: the wire body behaves exactly as if its nulls were omitted, a body of
only nulls answers `{updated: false}` without writing, and a successful
update can never clear a stored optional field (`lat`, `lng`,
`distance_to_university`, `available_from`, `available_to`) to absent. -/
theorem update_null_treated_as_absent (raw : RawPropertyUpdate) (now : Nat)
    (prop_id : String) (user : SafeUser) (db : DB) (oid : Nat) (p : PropDoc)
    (hparse : parseOid prop_id = some oid)
    (hfind : db.properties.find? (fun q => q._id == oid) = some p)
    (hauth : user.role = "admin" ∨ p.host_id = user.id) :
    (parsePropertyUpdate raw = parsePropertyUpdate (stripNulls raw))
    ∧ (noFields (parsePropertyUpdate allNullUpdate) = true)
    ∧ (update_property now prop_id (parsePropertyUpdate allNullUpdate) user db
        = (.ok .notUpdated, db))
    ∧ (∀ (res : PropView) (db' : DB),
        update_property now prop_id (parsePropertyUpdate raw) user db
          = (.ok (.updated res), db') →
        (p.lat.isSome → res.lat.isSome)
        ∧ (p.lng.isSome → res.lng.isSome)
        ∧ (p.distance_to_university.isSome → res.distance_to_university.isSome)
        ∧ (p.available_from.isSome → res.available_from.isSome)
        ∧ (p.available_to.isSome → res.available_to.isSome)) := by
  have hauthn : ¬(user.role ≠ "admin" ∧ p.host_id ≠ user.id) := by
    rcases hauth with h | h
    · exact fun hc => hc.1 h
    · exact fun hc => hc.2 h
  refine ⟨?_, rfl, ?_, ?_⟩
  · simp only [parsePropertyUpdate, stripNulls, PropertyUpdate.mk.injEq]
    exact ⟨(join_nullAbsent _).symm, (join_nullAbsent _).symm, (join_nullAbsent _).symm,
           (join_nullAbsent _).symm, (join_nullAbsent _).symm, (join_nullAbsent _).symm,
           (join_nullAbsent _).symm, (join_nullAbsent _).symm, (join_nullAbsent _).symm,
           (join_nullAbsent _).symm, (join_nullAbsent _).symm, (join_nullAbsent _).symm,
           (join_nullAbsent _).symm⟩
  · simp only [update_property, hparse, hfind]
    rw [if_neg hauthn]
    rfl
  · intro res db' heq
    simp only [update_property, hparse, hfind] at heq
    rw [if_neg hauthn] at heq
    cases hnf : noFields (parsePropertyUpdate raw) with
    | true =>
      rw [if_pos (by rw [hnf])] at heq
      exact absurd (congrArg Prod.fst heq) (by simp)
    | false =>
      rw [if_neg (by rw [hnf]; exact Bool.false_ne_true)] at heq
      have hpid : p._id = oid := by
        have := List.find?_some hfind
        simpa using this
      have hbase : db.properties.find? (fun q => q._id == p._id) = some p := by
        rw [hpid]; exact hfind
      have hupd : (updateFirst (fun q => q._id == p._id)
                    (applyUpdate (parsePropertyUpdate raw) now)
                    db.properties).find? (fun q => q._id == p._id)
                  = some (applyUpdate (parsePropertyUpdate raw) now p) := by
        rw [@find?_updateFirst _ (fun q => q._id == p._id)
              (applyUpdate (parsePropertyUpdate raw) now) (fun y => rfl) db.properties,
            hbase]
        rfl
      simp only [hupd] at heq
      have hres : res = propOut (applyUpdate (parsePropertyUpdate raw) now p) := by
        have h1 := congrArg Prod.fst heq
        simp at h1
        exact h1.symm
      subst hres
      refine ⟨?_, ?_, ?_, ?_, ?_⟩
      · intro h
        cases hb : (parsePropertyUpdate raw).lat <;>
          simp [propOut, applyUpdate, hb, h]
      · intro h
        cases hb : (parsePropertyUpdate raw).lng <;>
          simp [propOut, applyUpdate, hb, h]
      · intro h
        cases hb : (parsePropertyUpdate raw).distance_to_university <;>
          simp [propOut, applyUpdate, hb, h]
      · intro h
        cases hb : (parsePropertyUpdate raw).available_from <;>
          simp [propOut, applyUpdate, hb, h]
      · intro h
        cases hb : (parsePropertyUpdate raw).available_to <;>
          simp [propOut, applyUpdate, hb, h]

/-- Witness for C10: the all-null body and the mixed-null body at the
fixture property owned by `hostUserW`. -/
theorem update_null_treated_as_absent_witness :
    (parseOid (oidStr 1) = some 1
      ∧ dbW.properties.find? (fun q => q._id == 1) = some propW
      ∧ propW.host_id = hostUserW.id)
    ∧ (parsePropertyUpdate rawUpdW = parsePropertyUpdate (stripNulls rawUpdW))
    ∧ (noFields (parsePropertyUpdate allNullUpdate) = true)
    ∧ (update_property 99 (oidStr 1) (parsePropertyUpdate allNullUpdate) hostUserW dbW
        = (.ok .notUpdated, dbW))
    ∧ (∀ (res : PropView) (db' : DB),
        update_property 99 (oidStr 1) (parsePropertyUpdate rawUpdW) hostUserW dbW
          = (.ok (.updated res), db') →
        (propW.lat.isSome → res.lat.isSome)
        ∧ (propW.lng.isSome → res.lng.isSome)
        ∧ (propW.distance_to_university.isSome → res.distance_to_university.isSome)
        ∧ (propW.available_from.isSome → res.available_from.isSome)
        ∧ (propW.available_to.isSome → res.available_to.isSome)) := by
  have h := update_null_treated_as_absent rawUpdW 99 (oidStr 1) hostUserW dbW 1 propW
    (by decide) (by decide) (.inr (by decide))
  exact ⟨⟨by decide, by decide, by decide⟩, h.1, h.2.1, h.2.2.1, h.2.2.2⟩

end Saknli
